import Mathlib

/-!
Shallow embedding of `aten/src/ATen/native/vulkan/ops/Select.cpp`: the Vulkan
backend's `select` operator for rank-3 tensors, with its three dispatch plans
`select_depth`, `select_height` and `select_width`.

The GPU context is modelled as an explicit state recording the textures that
have been allocated and the compute jobs that have been submitted; each plan
threads this state.  External collaborators that are not part of the source
file (`vTensor::extents`, `api::utils::div_up`,
`api::utils::adaptive_work_group_size`, the host-to-device transfer
`Tensor::vulkan`) are modelled from the spec and marked as such.
-/

namespace VulkanSelect

/-- Scalar element types of tensors (`c10::ScalarType`); the operator is
agnostic in the element type, so a small enumeration suffices. -/
inductive ScalarType
  | float
  | half
  | int32
  | int64
  deriving DecidableEq

/-- Where a tensor lives: host (CPU) or the Vulkan device. -/
inductive Device
  | cpu
  | vulkan
  deriving DecidableEq

/-- `api::utils::uvec3`: a triple of unsigned 32-bit integers, accessed in the
source as `data[0u]`, `data[1u]`, `data[2u]`. -/
structure uvec3 where
  data0 : Nat
  data1 : Nat
  data2 : Nat
  deriving DecidableEq

/-- A tensor handle: shape (`sizes`), element type, residence, and the id of
the backing device texture (meaningful when `device = vulkan`). -/
structure Tensor where
  sizes : List Nat
  scalarType : ScalarType
  device : Device
  texId : Nat
  deriving DecidableEq

/-- `Tensor::is_vulkan()`. -/
def Tensor.is_vulkan (t : Tensor) : Bool :=
  match t.device with
  | Device.vulkan => true
  | Device.cpu => false

/-- `Tensor::dim()`: the rank, as the `int64_t` the C++ API returns. -/
def Tensor.dim (t : Tensor) : Int :=
  (t.sizes.length : Int)

/-- `Tensor::size(dim)` for `0 ≤ dim < rank`. -/
def Tensor.size (t : Tensor) (d : Int) : Int :=
  (t.sizes.getD d.toNat 0 : Int)

/-- A record of one texture allocated on the GPU context. -/
structure TextureRec where
  id : Nat
  sizes : List Nat
  scalarType : ScalarType
  deriving DecidableEq

/-- `vTensor`: a device tensor backed by a packed texture. -/
structure vTensor where
  sizes : List Nat
  scalarType : ScalarType
  texId : Nat
  deriving DecidableEq

/-- Modelled from the spec: `api::utils::div_up`, the ceiling division the
spec writes as `ceil(C/4)` (not part of the source file). -/
def div_up (x y : Nat) : Nat :=
  (x + y - 1) / y

/-- The `k`-th dimension counted from the last one (`k = 1` is the innermost),
defaulting to 1 when the rank is smaller than `k`. -/
def dimFromBack (sizes : List Nat) (k : Nat) : Nat :=
  if 1 ≤ k ∧ k ≤ sizes.length then sizes.getD (sizes.length - k) 1 else 1

/-- Modelled from the spec: the extents of the packed texture backing a tensor
of the given sizes.  Spec §3: a device tensor of shape `(C, H, W)` is backed by
a texture of extents `(W, H, ceil(C/4))`, the channel axis being packed 4-to-a
texel; missing leading dimensions count as 1. -/
def textureExtents (sizes : List Nat) : uvec3 :=
  ⟨dimFromBack sizes 1, dimFromBack sizes 2,
    div_up (dimFromBack sizes 4 * dimFromBack sizes 3) 4⟩

/-- `vTensor::extents()`: the extents of the backing packed texture. -/
def vTensor.extents (v : vTensor) : uvec3 :=
  textureExtents v.sizes

/-- The uniform parameter block built by every plan:
`struct Block final { uvec3 size; uint32_t index; }`. -/
structure Block where
  size : uvec3
  index : Nat
  deriving DecidableEq

/-- The parameter block as the flat sequence of 32-bit words bound as the
shader's uniform buffer: the struct laid out field after field, the `uvec3`
first, component by component, then the index. -/
def Block.words (b : Block) : List Nat :=
  [b.size.data0, b.size.data1, b.size.data2, b.index]

/-- One compute job as recorded by `Context::submit_compute_job`: shader name,
global and local work-group sizes, the bound parameter block, and the textures
bound for write (output) and read (input). -/
structure SubmittedJob where
  shader : String
  global_work_group : uvec3
  local_work_group : uvec3
  params : Block
  outputTex : Nat
  inputTex : Nat
  deriving DecidableEq

/-- The GPU context state: a counter of texture ids, the list of allocated
textures (in allocation order) and the list of submitted jobs (in submission
order). -/
structure GpuContext where
  nextTexId : Nat
  textures : List TextureRec
  jobs : List SubmittedJob
  deriving DecidableEq

/-- Allocate a fresh texture on the context. -/
def allocTexture (ctx : GpuContext) (sizes : List Nat) (st : ScalarType) :
    TextureRec × GpuContext :=
  let tex : TextureRec := ⟨ctx.nextTexId, sizes, st⟩
  (tex, ⟨ctx.nextTexId + 1, ctx.textures ++ [tex], ctx.jobs⟩)

/-- The `vTensor{context, sizes, scalar_type}` constructor: allocates a new
uninitialized texture of the packed extents for `sizes` and wraps it. -/
def vTensor.make (ctx : GpuContext) (sizes : List Nat) (st : ScalarType) :
    vTensor × GpuContext :=
  let (tex, ctx1) := allocTexture ctx sizes st
  (⟨sizes, st, tex.id⟩, ctx1)

/-- `Context::submit_compute_job`: record one compute job on the queue. -/
def submit_compute_job (ctx : GpuContext) (job : SubmittedJob) : GpuContext :=
  ⟨ctx.nextTexId, ctx.textures, ctx.jobs ++ [job]⟩

/-- Modelled from the spec: `Tensor::vulkan()`, the host-to-device transfer
(spec §4.5 step 1); it backs the tensor with a newly allocated device texture
and leaves shape and element type unchanged. -/
def Tensor.vulkan (t : Tensor) (ctx : GpuContext) : Tensor × GpuContext :=
  let (tex, ctx1) := allocTexture ctx t.sizes t.scalarType
  (⟨t.sizes, t.scalarType, Device.vulkan, tex.id⟩, ctx1)

/-- `input_arg.is_vulkan() ? input_arg : input_arg.vulkan()` as it appears at
the top of every plan. -/
def ensureVulkan (t : Tensor) (ctx : GpuContext) : Tensor × GpuContext :=
  if t.is_vulkan then (t, ctx) else t.vulkan ctx

/-- `ops::convert` from a device tensor handle to a `vTensor` view. -/
def convertV (t : Tensor) : vTensor :=
  ⟨t.sizes, t.scalarType, t.texId⟩

/-- `ops::convert` from a `vTensor` back to a tensor handle. -/
def convert (v : vTensor) : Tensor :=
  ⟨v.sizes, v.scalarType, Device.vulkan, v.texId⟩

/-- Modelled from the spec: `api::utils::adaptive_work_group_size`, the local
work-group size chosen adaptively from the global dispatch geometry
(spec §4.2: any adaptive tiling computed from the global geometry). -/
def adaptive_work_group_size (global_work_group : uvec3) : uvec3 :=
  if global_work_group.data2 = 1 then
    if global_work_group.data1 < 8 then ⟨16, 4, 1⟩ else ⟨8, 8, 1⟩
  else ⟨4, 4, 4⟩

/-- The C++ implicit conversion from a signed 64-bit integer to `uint32_t`:
reduction modulo `2^32`.  The plans take their `index` parameter as
`uint32_t` while the driver holds it as `int64_t`. -/
def int64ToUInt32 (i : Int) : Nat :=
  (i % ((2 : Int) ^ 32)).toNat

/-- `select_depth(input_arg, index)`: axis-0 plan.  Output sizes are input
dims 1 and 2; geometry is the output extents. -/
def select_depth (input_arg : Tensor) (index : Nat) (ctx : GpuContext) :
    Tensor × GpuContext :=
  let (input, ctx1) := ensureVulkan input_arg ctx
  let v_input := convertV input
  let v_input_sizes := v_input.sizes
  let (v_output, ctx2) :=
    vTensor.make ctx1 [v_input_sizes.getD 1 0, v_input_sizes.getD 2 0]
      input_arg.scalarType
  let block : Block := ⟨v_output.extents, index⟩
  let ctx3 := submit_compute_job ctx2
    { shader := "select_depth"
      global_work_group := v_output.extents
      local_work_group := adaptive_work_group_size v_output.extents
      params := block
      outputTex := v_output.texId
      inputTex := v_input.texId }
  (convert v_output, ctx3)

/-- `select_height(input_arg, index)`: axis-1 plan.  Output sizes are input
dims 0 and 2; geometry is `(w, div_up(c, 4), 1)` with `w` and `c` read back
from the output extents components 0 and 1. -/
def select_height (input_arg : Tensor) (index : Nat) (ctx : GpuContext) :
    Tensor × GpuContext :=
  let (input, ctx1) := ensureVulkan input_arg ctx
  let v_input := convertV input
  let v_input_sizes := v_input.sizes
  let (v_output, ctx2) :=
    vTensor.make ctx1 [v_input_sizes.getD 0 0, v_input_sizes.getD 2 0]
      input_arg.scalarType
  let block : Block := ⟨v_output.extents, index⟩
  let w := v_output.extents.data0
  let c := v_output.extents.data1
  let global_workgroup_size : uvec3 := ⟨w, div_up c 4, 1⟩
  let ctx3 := submit_compute_job ctx2
    { shader := "select_height"
      global_work_group := global_workgroup_size
      local_work_group := adaptive_work_group_size global_workgroup_size
      params := block
      outputTex := v_output.texId
      inputTex := v_input.texId }
  (convert v_output, ctx3)

/-- `select_width(input_arg, index)`: axis-2 plan.  Output sizes are input
dims 0 and 1; geometry is `(h, div_up(c, 4), 1)` with `h` and `c` read back
from the output extents components 0 and 1. -/
def select_width (input_arg : Tensor) (index : Nat) (ctx : GpuContext) :
    Tensor × GpuContext :=
  let (input, ctx1) := ensureVulkan input_arg ctx
  let v_input := convertV input
  let v_input_sizes := v_input.sizes
  let (v_output, ctx2) :=
    vTensor.make ctx1 [v_input_sizes.getD 0 0, v_input_sizes.getD 1 0]
      input_arg.scalarType
  let block : Block := ⟨v_output.extents, index⟩
  let h := v_output.extents.data0
  let c := v_output.extents.data1
  let global_workgroup_size : uvec3 := ⟨h, div_up c 4, 1⟩
  let ctx3 := submit_compute_job ctx2
    { shader := "select_width"
      global_work_group := global_workgroup_size
      local_work_group := adaptive_work_group_size global_workgroup_size
      params := block
      outputTex := v_output.texId
      inputTex := v_input.texId }
  (convert v_output, ctx3)

/-- The errors the driver can raise: `TORCH_CHECK` failures (invalid rank or
axis) and `TORCH_CHECK_INDEX` failures, the latter carrying the pieces the
message interpolates: the offending raw index, the full input sizes, and the
dimension. -/
inductive SelectError
  | invalidArgument (msg : String)
  | indexOutOfRange (index : Int) (sizes : List Nat) (dim : Int)
  deriving DecidableEq

instance : DecidableEq (Except SelectError Tensor) := fun a b =>
  match a, b with
  | Except.ok x, Except.ok y =>
      if h : x = y then isTrue (by rw [h]) else isFalse (by simp [h])
  | Except.error x, Except.error y =>
      if h : x = y then isTrue (by rw [h]) else isFalse (by simp [h])
  | Except.ok _, Except.error _ => isFalse (by simp)
  | Except.error _, Except.ok _ => isFalse (by simp)

/-- `select(self, dim, index)`: the driver.  Validates rank and axis, range
checks the index, normalizes a negative index by adding the size, and routes
to the plan for the axis; on an error path the context is untouched. -/
def select (self : Tensor) (dim index : Int) (ctx : GpuContext) :
    Except SelectError Tensor × GpuContext :=
  if self.dim ≠ 3 then
    (Except.error
      (SelectError.invalidArgument ("Vulkan select only supports 3d tensors!")),
     ctx)
  else if ¬ (0 ≤ dim ∧ dim ≤ 2) then
    (Except.error
      (SelectError.invalidArgument
        ("Vulkan select only supports one of the dim (0, 1, 2)")),
     ctx)
  else
    let size : Int := self.size dim
    if index < -size ∨ index ≥ size then
      (Except.error (SelectError.indexOutOfRange index self.sizes dim), ctx)
    else
      let nindex : Int := if index < 0 then index + size else index
      if dim = 0 then
        let (t, ctx1) := select_depth self (int64ToUInt32 nindex) ctx
        (Except.ok t, ctx1)
      else if dim = 1 then
        let (t, ctx1) := select_height self (int64ToUInt32 nindex) ctx
        (Except.ok t, ctx1)
      else
        let (t, ctx1) := select_width self (int64ToUInt32 nindex) ctx
        (Except.ok t, ctx1)

/-! ## Fixtures for the concrete witnesses -/

/-- Fixture: a GPU context holding one previously allocated texture. -/
def ctx0 : GpuContext := ⟨5, [⟨0, [2, 3, 4], ScalarType.float⟩], []⟩

/-- Fixture: a device tensor of shape (2, 3, 4) backed by texture 0. -/
def t234 : Tensor := ⟨[2, 3, 4], ScalarType.float, Device.vulkan, 0⟩

/-- Fixture: a host tensor of shape (2, 3, 4). -/
def t234cpu : Tensor := ⟨[2, 3, 4], ScalarType.float, Device.cpu, 0⟩

/-! ## Helper lemmas -/

theorem ensureVulkan_spec (t : Tensor) (ctx : GpuContext) :
    ∃ pre,
      (ensureVulkan t ctx).1.sizes = t.sizes ∧
      (ensureVulkan t ctx).1.scalarType = t.scalarType ∧
      (ensureVulkan t ctx).2.textures = ctx.textures ++ pre ∧
      (ensureVulkan t ctx).2.jobs = ctx.jobs ∧
      (ensureVulkan t ctx).2.nextTexId = ctx.nextTexId + pre.length ∧
      (∀ tex ∈ pre, ctx.nextTexId ≤ tex.id) := by
  cases h : t.is_vulkan with
  | true =>
      refine ⟨[], ?_, ?_, ?_, ?_, ?_, ?_⟩ <;>
        simp [ensureVulkan, h]
  | false =>
      refine ⟨[⟨ctx.nextTexId, t.sizes, t.scalarType⟩], ?_, ?_, ?_, ?_, ?_, ?_⟩ <;>
        simp [ensureVulkan, h, Tensor.vulkan, allocTexture]

theorem select_depth_spec (input_arg : Tensor) (index : Nat) (ctx : GpuContext) :
    ∃ pre outTex job,
      (select_depth input_arg index ctx).2.textures =
        (ctx.textures ++ pre) ++ [outTex] ∧
      (select_depth input_arg index ctx).2.jobs = ctx.jobs ++ [job] ∧
      (∀ tex ∈ pre, ctx.nextTexId ≤ tex.id) ∧
      outTex.id = ctx.nextTexId + pre.length ∧
      outTex.sizes = [input_arg.sizes.getD 1 0, input_arg.sizes.getD 2 0] ∧
      outTex.scalarType = input_arg.scalarType ∧
      (select_depth input_arg index ctx).1 =
        ⟨outTex.sizes, outTex.scalarType, Device.vulkan, outTex.id⟩ ∧
      job.shader = "select_depth" ∧
      job.global_work_group = textureExtents outTex.sizes ∧
      job.local_work_group = adaptive_work_group_size job.global_work_group ∧
      job.params = ⟨textureExtents outTex.sizes, index⟩ ∧
      job.outputTex = outTex.id := by
  obtain ⟨szs, st, dev, tid⟩ := input_arg
  cases dev with
  | vulkan =>
      refine ⟨[], ⟨ctx.nextTexId, [szs.getD 1 0, szs.getD 2 0], st⟩,
        ⟨"select_depth", textureExtents [szs.getD 1 0, szs.getD 2 0],
          adaptive_work_group_size (textureExtents [szs.getD 1 0, szs.getD 2 0]),
          ⟨textureExtents [szs.getD 1 0, szs.getD 2 0], index⟩,
          ctx.nextTexId, tid⟩, ?_, ?_, ?_, ?_, ?_, ?_, ?_, ?_, ?_, ?_, ?_, ?_⟩ <;>
        simp [select_depth, ensureVulkan, Tensor.is_vulkan, vTensor.make,
          allocTexture, submit_compute_job, convert, convertV, vTensor.extents]
  | cpu =>
      refine ⟨[⟨ctx.nextTexId, szs, st⟩],
        ⟨ctx.nextTexId + 1, [szs.getD 1 0, szs.getD 2 0], st⟩,
        ⟨"select_depth", textureExtents [szs.getD 1 0, szs.getD 2 0],
          adaptive_work_group_size (textureExtents [szs.getD 1 0, szs.getD 2 0]),
          ⟨textureExtents [szs.getD 1 0, szs.getD 2 0], index⟩,
          ctx.nextTexId + 1, ctx.nextTexId⟩,
        ?_, ?_, ?_, ?_, ?_, ?_, ?_, ?_, ?_, ?_, ?_, ?_⟩ <;>
        simp [select_depth, ensureVulkan, Tensor.is_vulkan, Tensor.vulkan,
          vTensor.make, allocTexture, submit_compute_job, convert, convertV,
          vTensor.extents]

theorem select_height_spec (input_arg : Tensor) (index : Nat) (ctx : GpuContext) :
    ∃ pre outTex job,
      (select_height input_arg index ctx).2.textures =
        (ctx.textures ++ pre) ++ [outTex] ∧
      (select_height input_arg index ctx).2.jobs = ctx.jobs ++ [job] ∧
      (∀ tex ∈ pre, ctx.nextTexId ≤ tex.id) ∧
      outTex.id = ctx.nextTexId + pre.length ∧
      outTex.sizes = [input_arg.sizes.getD 0 0, input_arg.sizes.getD 2 0] ∧
      outTex.scalarType = input_arg.scalarType ∧
      (select_height input_arg index ctx).1 =
        ⟨outTex.sizes, outTex.scalarType, Device.vulkan, outTex.id⟩ ∧
      job.shader = "select_height" ∧
      job.global_work_group =
        ⟨(textureExtents outTex.sizes).data0,
          div_up (textureExtents outTex.sizes).data1 4, 1⟩ ∧
      job.local_work_group = adaptive_work_group_size job.global_work_group ∧
      job.params = ⟨textureExtents outTex.sizes, index⟩ ∧
      job.outputTex = outTex.id := by
  obtain ⟨szs, st, dev, tid⟩ := input_arg
  cases dev with
  | vulkan =>
      refine ⟨[], ⟨ctx.nextTexId, [szs.getD 0 0, szs.getD 2 0], st⟩,
        ⟨"select_height",
          ⟨(textureExtents [szs.getD 0 0, szs.getD 2 0]).data0,
            div_up (textureExtents [szs.getD 0 0, szs.getD 2 0]).data1 4, 1⟩,
          adaptive_work_group_size
            ⟨(textureExtents [szs.getD 0 0, szs.getD 2 0]).data0,
              div_up (textureExtents [szs.getD 0 0, szs.getD 2 0]).data1 4, 1⟩,
          ⟨textureExtents [szs.getD 0 0, szs.getD 2 0], index⟩,
          ctx.nextTexId, tid⟩, ?_, ?_, ?_, ?_, ?_, ?_, ?_, ?_, ?_, ?_, ?_, ?_⟩ <;>
        simp [select_height, ensureVulkan, Tensor.is_vulkan, vTensor.make,
          allocTexture, submit_compute_job, convert, convertV, vTensor.extents]
  | cpu =>
      refine ⟨[⟨ctx.nextTexId, szs, st⟩],
        ⟨ctx.nextTexId + 1, [szs.getD 0 0, szs.getD 2 0], st⟩,
        ⟨"select_height",
          ⟨(textureExtents [szs.getD 0 0, szs.getD 2 0]).data0,
            div_up (textureExtents [szs.getD 0 0, szs.getD 2 0]).data1 4, 1⟩,
          adaptive_work_group_size
            ⟨(textureExtents [szs.getD 0 0, szs.getD 2 0]).data0,
              div_up (textureExtents [szs.getD 0 0, szs.getD 2 0]).data1 4, 1⟩,
          ⟨textureExtents [szs.getD 0 0, szs.getD 2 0], index⟩,
          ctx.nextTexId + 1, ctx.nextTexId⟩,
        ?_, ?_, ?_, ?_, ?_, ?_, ?_, ?_, ?_, ?_, ?_, ?_⟩ <;>
        simp [select_height, ensureVulkan, Tensor.is_vulkan, Tensor.vulkan,
          vTensor.make, allocTexture, submit_compute_job, convert, convertV,
          vTensor.extents]

theorem select_width_spec (input_arg : Tensor) (index : Nat) (ctx : GpuContext) :
    ∃ pre outTex job,
      (select_width input_arg index ctx).2.textures =
        (ctx.textures ++ pre) ++ [outTex] ∧
      (select_width input_arg index ctx).2.jobs = ctx.jobs ++ [job] ∧
      (∀ tex ∈ pre, ctx.nextTexId ≤ tex.id) ∧
      outTex.id = ctx.nextTexId + pre.length ∧
      outTex.sizes = [input_arg.sizes.getD 0 0, input_arg.sizes.getD 1 0] ∧
      outTex.scalarType = input_arg.scalarType ∧
      (select_width input_arg index ctx).1 =
        ⟨outTex.sizes, outTex.scalarType, Device.vulkan, outTex.id⟩ ∧
      job.shader = "select_width" ∧
      job.global_work_group =
        ⟨(textureExtents outTex.sizes).data0,
          div_up (textureExtents outTex.sizes).data1 4, 1⟩ ∧
      job.local_work_group = adaptive_work_group_size job.global_work_group ∧
      job.params = ⟨textureExtents outTex.sizes, index⟩ ∧
      job.outputTex = outTex.id := by
  obtain ⟨szs, st, dev, tid⟩ := input_arg
  cases dev with
  | vulkan =>
      refine ⟨[], ⟨ctx.nextTexId, [szs.getD 0 0, szs.getD 1 0], st⟩,
        ⟨"select_width",
          ⟨(textureExtents [szs.getD 0 0, szs.getD 1 0]).data0,
            div_up (textureExtents [szs.getD 0 0, szs.getD 1 0]).data1 4, 1⟩,
          adaptive_work_group_size
            ⟨(textureExtents [szs.getD 0 0, szs.getD 1 0]).data0,
              div_up (textureExtents [szs.getD 0 0, szs.getD 1 0]).data1 4, 1⟩,
          ⟨textureExtents [szs.getD 0 0, szs.getD 1 0], index⟩,
          ctx.nextTexId, tid⟩, ?_, ?_, ?_, ?_, ?_, ?_, ?_, ?_, ?_, ?_, ?_, ?_⟩ <;>
        simp [select_width, ensureVulkan, Tensor.is_vulkan, vTensor.make,
          allocTexture, submit_compute_job, convert, convertV, vTensor.extents]
  | cpu =>
      refine ⟨[⟨ctx.nextTexId, szs, st⟩],
        ⟨ctx.nextTexId + 1, [szs.getD 0 0, szs.getD 1 0], st⟩,
        ⟨"select_width",
          ⟨(textureExtents [szs.getD 0 0, szs.getD 1 0]).data0,
            div_up (textureExtents [szs.getD 0 0, szs.getD 1 0]).data1 4, 1⟩,
          adaptive_work_group_size
            ⟨(textureExtents [szs.getD 0 0, szs.getD 1 0]).data0,
              div_up (textureExtents [szs.getD 0 0, szs.getD 1 0]).data1 4, 1⟩,
          ⟨textureExtents [szs.getD 0 0, szs.getD 1 0], index⟩,
          ctx.nextTexId + 1, ctx.nextTexId⟩,
        ?_, ?_, ?_, ?_, ?_, ?_, ?_, ?_, ?_, ?_, ?_, ?_⟩ <;>
        simp [select_width, ensureVulkan, Tensor.is_vulkan, Tensor.vulkan,
          vTensor.make, allocTexture, submit_compute_job, convert, convertV,
          vTensor.extents]

theorem select_eq_depth (self : Tensor) (index : Int) (ctx : GpuContext)
    (h3 : self.dim = 3)
    (hlo : -(self.size 0) ≤ index) (hhi : index < self.size 0) :
    select self 0 index ctx =
      (Except.ok (select_depth self
          (int64ToUInt32 (if index < 0 then index + self.size 0 else index)) ctx).1,
       (select_depth self
          (int64ToUInt32 (if index < 0 then index + self.size 0 else index)) ctx).2) := by
  have h1 : ¬ (self.dim ≠ 3) := by omega
  have h2 : ¬ ¬ ((0 : Int) ≤ 0 ∧ (0 : Int) ≤ 2) := by norm_num
  have h4 : ¬ (index < -(self.size 0) ∨ index ≥ self.size 0) := by omega
  simp only [select, if_neg h1, if_neg h2, if_neg h4]
  norm_num

theorem select_eq_height (self : Tensor) (index : Int) (ctx : GpuContext)
    (h3 : self.dim = 3)
    (hlo : -(self.size 1) ≤ index) (hhi : index < self.size 1) :
    select self 1 index ctx =
      (Except.ok (select_height self
          (int64ToUInt32 (if index < 0 then index + self.size 1 else index)) ctx).1,
       (select_height self
          (int64ToUInt32 (if index < 0 then index + self.size 1 else index)) ctx).2) := by
  have h1 : ¬ (self.dim ≠ 3) := by omega
  have h2 : ¬ ¬ ((0 : Int) ≤ 1 ∧ (1 : Int) ≤ 2) := by norm_num
  have h4 : ¬ (index < -(self.size 1) ∨ index ≥ self.size 1) := by omega
  simp only [select, if_neg h1, if_neg h2, if_neg h4]
  norm_num

theorem select_eq_width (self : Tensor) (index : Int) (ctx : GpuContext)
    (h3 : self.dim = 3)
    (hlo : -(self.size 2) ≤ index) (hhi : index < self.size 2) :
    select self 2 index ctx =
      (Except.ok (select_width self
          (int64ToUInt32 (if index < 0 then index + self.size 2 else index)) ctx).1,
       (select_width self
          (int64ToUInt32 (if index < 0 then index + self.size 2 else index)) ctx).2) := by
  have h1 : ¬ (self.dim ≠ 3) := by omega
  have h2 : ¬ ¬ ((0 : Int) ≤ 2 ∧ (2 : Int) ≤ 2) := by norm_num
  have h4 : ¬ (index < -(self.size 2) ∨ index ≥ self.size 2) := by omega
  simp only [select, if_neg h1, if_neg h2, if_neg h4]
  norm_num

theorem size_nonneg (t : Tensor) (d : Int) : 0 ≤ t.size d := by
  unfold Tensor.size
  exact Int.natCast_nonneg _

theorem sizes_of_rank3 (self : Tensor) (h3 : self.dim = 3) :
    ∃ a b c, self.sizes = [a, b, c] := by
  have hlen : self.sizes.length = 3 := by
    have := h3
    unfold Tensor.dim at this
    omega
  rcases hsz : self.sizes with _ | ⟨a, l⟩
  · rw [hsz] at hlen; simp at hlen
  rcases l with _ | ⟨b, l⟩
  · rw [hsz] at hlen; simp at hlen
  rcases l with _ | ⟨c, l⟩
  · rw [hsz] at hlen; simp at hlen
  rcases l with _ | ⟨d, l⟩
  · exact ⟨a, b, c, rfl⟩
  · rw [hsz] at hlen; simp at hlen

/-! ## Claims -/

/-- C2: for every rank-3 input tensor, every axis in {0,1,2} and every index in
`[-size, size)`, `select` succeeds and returns a tensor whose sizes are the
input sizes with the selected dimension removed (axis 0 gives (H,W), axis 1
gives (C,W), axis 2 gives (C,H)) and whose element type equals the input's. -/
theorem select_shape_and_dtype (self : Tensor) (dim index : Int)
    (ctx : GpuContext) (h3 : self.dim = 3) (h0 : 0 ≤ dim) (h2 : dim ≤ 2)
    (hlo : -(self.size dim) ≤ index) (hhi : index < self.size dim) :
    ∃ t ctx1, select self dim index ctx = (Except.ok t, ctx1) ∧
      t.sizes = self.sizes.eraseIdx dim.toNat ∧
      t.scalarType = self.scalarType := by
  obtain ⟨a, b, c, habc⟩ := sizes_of_rank3 self h3
  have hdim : dim = 0 ∨ dim = 1 ∨ dim = 2 := by omega
  rcases hdim with rfl | rfl | rfl
  · obtain ⟨pre, outTex, job, ht, hj, hpre, hid, hsz, hst, hr1, hrest⟩ :=
      select_depth_spec self
        (int64ToUInt32 (if index < 0 then index + self.size 0 else index)) ctx
    refine ⟨_, _, select_eq_depth self index ctx h3 hlo hhi, ?_, ?_⟩
    · rw [hr1]
      simp [hsz, habc]
    · rw [hr1]
      simp [hst]
  · obtain ⟨pre, outTex, job, ht, hj, hpre, hid, hsz, hst, hr1, hrest⟩ :=
      select_height_spec self
        (int64ToUInt32 (if index < 0 then index + self.size 1 else index)) ctx
    refine ⟨_, _, select_eq_height self index ctx h3 hlo hhi, ?_, ?_⟩
    · rw [hr1]
      simp [hsz, habc]
    · rw [hr1]
      simp [hst]
  · obtain ⟨pre, outTex, job, ht, hj, hpre, hid, hsz, hst, hr1, hrest⟩ :=
      select_width_spec self
        (int64ToUInt32 (if index < 0 then index + self.size 2 else index)) ctx
    refine ⟨_, _, select_eq_width self index ctx h3 hlo hhi, ?_, ?_⟩
    · rw [hr1]
      simp [hsz, habc]
    · rw [hr1]
      simp [hst]

/-- Witness for C2: the host tensor (2,3,4), axis 1, index 2 yields shape
(2,4) and the input's element type. -/
theorem select_shape_and_dtype_witness :
    ∃ t ctx1, select t234cpu 1 2 ctx0 = (Except.ok t, ctx1) ∧
      t.sizes = t234cpu.sizes.eraseIdx (1 : Int).toNat ∧
      t.scalarType = t234cpu.scalarType :=
  select_shape_and_dtype t234cpu 1 2 ctx0 (by decide) (by decide) (by decide)
    (by decide) (by decide)

/-- C3: for every rank-3 tensor and axis in {0,1,2}, `select` fails with an
IndexOutOfRange error carrying the offending raw index, the full input sizes
and the axis, exactly when `index < -size` or `index ≥ size`; in range the
call never produces that error (no silent clamping). -/
theorem select_oob_iff (self : Tensor) (dim index : Int) (ctx : GpuContext)
    (h3 : self.dim = 3) (h0 : 0 ≤ dim) (h2 : dim ≤ 2) :
    (select self dim index ctx).1 =
        Except.error (SelectError.indexOutOfRange index self.sizes dim) ↔
      (index < -(self.size dim) ∨ self.size dim ≤ index) := by
  by_cases hc : index < -(self.size dim) ∨ self.size dim ≤ index
  · refine ⟨fun _ => hc, fun _ => ?_⟩
    have h1 : ¬ (self.dim ≠ 3) := by omega
    have h2c : ¬ ¬ (0 ≤ dim ∧ dim ≤ 2) := by omega
    have hc2 : index < -(self.size dim) ∨ index ≥ self.size dim := by omega
    simp only [select, if_neg h1, if_neg h2c, if_pos hc2]
  · have hlo : -(self.size dim) ≤ index := by omega
    have hhi : index < self.size dim := by omega
    refine ⟨fun heq => ?_, fun habs => absurd habs hc⟩
    have hdim : dim = 0 ∨ dim = 1 ∨ dim = 2 := by omega
    rcases hdim with rfl | rfl | rfl
    · rw [select_eq_depth self index ctx h3 hlo hhi] at heq
      simp at heq
    · rw [select_eq_height self index ctx h3 hlo hhi] at heq
      simp at heq
    · rw [select_eq_width self index ctx h3 hlo hhi] at heq
      simp at heq

/-- Witness for C3: on tensor (2,3,4) at axis 0, the boundary index 2 (the
size itself) does fail with IndexOutOfRange reporting index 2, sizes
[2, 3, 4] and axis 0. -/
theorem select_oob_iff_witness :
    (select t234 0 2 ctx0).1 =
      Except.error (SelectError.indexOutOfRange 2 t234.sizes 0) :=
  (select_oob_iff t234 0 2 ctx0 (by decide) (by decide) (by decide)).mpr
    (by decide)

/-- C4: for every rank-3 tensor, axis in {0,1,2} and negative index in
`[-size, 0)`, `select self axis index` returns exactly the same result (same
tensor, same final context) as `select self axis (index + size)`: the negative
index is rewritten as `index + size` before dispatch. -/
theorem select_negative_index (self : Tensor) (dim index : Int)
    (ctx : GpuContext) (h3 : self.dim = 3) (h0 : 0 ≤ dim) (h2 : dim ≤ 2)
    (hneg : index < 0) (hlo : -(self.size dim) ≤ index) :
    select self dim index ctx = select self dim (index + self.size dim) ctx := by
  have hsz : 0 ≤ self.size dim := size_nonneg self dim
  have hhi : index < self.size dim := by omega
  have hlo2 : -(self.size dim) ≤ index + self.size dim := by omega
  have hhi2 : index + self.size dim < self.size dim := by omega
  have hnn : ¬ (index + self.size dim < 0) := by omega
  have hdim : dim = 0 ∨ dim = 1 ∨ dim = 2 := by omega
  rcases hdim with rfl | rfl | rfl
  · rw [select_eq_depth self index ctx h3 hlo hhi,
      select_eq_depth self (index + self.size 0) ctx h3 hlo2 hhi2,
      if_pos hneg, if_neg hnn]
  · rw [select_eq_height self index ctx h3 hlo hhi,
      select_eq_height self (index + self.size 1) ctx h3 hlo2 hhi2,
      if_pos hneg, if_neg hnn]
  · rw [select_eq_width self index ctx h3 hlo hhi,
      select_eq_width self (index + self.size 2) ctx h3 hlo2 hhi2,
      if_pos hneg, if_neg hnn]

/-- Witness for C4: on tensor (2,3,4) at axis 2, index -1 gives exactly the
result of index 3. -/
theorem select_negative_index_witness :
    select t234 2 (-1) ctx0 = select t234 2 (-1 + t234.size 2) ctx0 :=
  select_negative_index t234 2 (-1) ctx0 (by decide) (by decide) (by decide)
    (by decide) (by decide)

/-- C5: for every input whose rank is not 3 and for every axis outside
{0,1,2}, `select` fails with an InvalidArgument error and returns the GPU
context untouched: no texture, parameter block or job is created. -/
theorem select_invalid_argument (self : Tensor) (dim index : Int)
    (ctx : GpuContext) (hbad : self.dim ≠ 3 ∨ dim < 0 ∨ 2 < dim) :
    ∃ msg, select self dim index ctx =
      (Except.error (SelectError.invalidArgument msg), ctx) := by
  by_cases h3 : self.dim = 3
  · refine ⟨("Vulkan select only supports one of the dim (0, 1, 2)"), ?_⟩
    simp only [select, if_neg (show ¬ (self.dim ≠ 3) by omega),
      if_pos (show ¬ (0 ≤ dim ∧ dim ≤ 2) by omega)]
  · refine ⟨("Vulkan select only supports 3d tensors!"), ?_⟩
    simp only [select, if_pos h3]

/-- Witness for C5: axis 3 on the rank-3 tensor (2,3,4) fails with
InvalidArgument and leaves the context unchanged. -/
theorem select_invalid_argument_witness :
    ∃ msg, select t234 3 0 ctx0 =
      (Except.error (SelectError.invalidArgument msg), ctx0) :=
  select_invalid_argument t234 3 0 ctx0 (by decide)

/-- C1: for every height-select call (axis 1) and every width-select call
(axis 2), the global dispatch geometry of the submitted job is
`(e.data0, div_up(e.data1, 4), 1)` where `e` is the extents of the freshly
allocated output texture itself (the last texture the call allocated on the
context), i.e. `(W, ceil(C/4), 1)` for height and `(H, ceil(C/4), 1)` for
width, with both factors read back off the output texture's extent
components 0 and 1. -/
theorem select_hw_geometry (self : Tensor) (dim index : Int)
    (ctx : GpuContext) (h3 : self.dim = 3) (hdim : dim = 1 ∨ dim = 2)
    (hlo : -(self.size dim) ≤ index) (hhi : index < self.size dim) :
    ∃ t ctx1 pre outTex job,
      select self dim index ctx = (Except.ok t, ctx1) ∧
      ctx1.textures = (ctx.textures ++ pre) ++ [outTex] ∧
      t.texId = outTex.id ∧
      ctx1.jobs = ctx.jobs ++ [job] ∧
      job.global_work_group =
        ⟨(textureExtents outTex.sizes).data0,
          div_up (textureExtents outTex.sizes).data1 4, 1⟩ := by
  rcases hdim with rfl | rfl
  · obtain ⟨pre, outTex, job, ht, hj, hpre, hid, hsz, hst, hr1, hsh, hg, hrest⟩ :=
      select_height_spec self
        (int64ToUInt32 (if index < 0 then index + self.size 1 else index)) ctx
    refine ⟨_, _, pre, outTex, job,
      select_eq_height self index ctx h3 hlo hhi, ht, ?_, hj, hg⟩
    rw [hr1]
  · obtain ⟨pre, outTex, job, ht, hj, hpre, hid, hsz, hst, hr1, hsh, hg, hrest⟩ :=
      select_width_spec self
        (int64ToUInt32 (if index < 0 then index + self.size 2 else index)) ctx
    refine ⟨_, _, pre, outTex, job,
      select_eq_width self index ctx h3 hlo hhi, ht, ?_, hj, hg⟩
    rw [hr1]

/-- Witness for C1: tensor (2,3,4), axis 1, index 0. -/
theorem select_hw_geometry_witness :
    ∃ t ctx1 pre outTex job,
      select t234 1 0 ctx0 = (Except.ok t, ctx1) ∧
      ctx1.textures = (ctx0.textures ++ pre) ++ [outTex] ∧
      t.texId = outTex.id ∧
      ctx1.jobs = ctx0.jobs ++ [job] ∧
      job.global_work_group =
        ⟨(textureExtents outTex.sizes).data0,
          div_up (textureExtents outTex.sizes).data1 4, 1⟩ :=
  select_hw_geometry t234 1 0 ctx0 (by decide) (Or.inl rfl) (by decide)
    (by decide)

/-- C6: for every call that passes validation, the driver routes axis 0 to the
shader `select_depth`, axis 1 to `select_height` and axis 2 to `select_width`,
and the parameter block of the submitted job carries the normalized
non-negative index (as the `uint32_t` the plan receives). -/
theorem select_routing (self : Tensor) (dim index : Int) (ctx : GpuContext)
    (h3 : self.dim = 3) (h0 : 0 ≤ dim) (h2 : dim ≤ 2)
    (hlo : -(self.size dim) ≤ index) (hhi : index < self.size dim) :
    ∃ t ctx1 job,
      select self dim index ctx = (Except.ok t, ctx1) ∧
      ctx1.jobs = ctx.jobs ++ [job] ∧
      job.shader = (if dim = 0 then ("select_depth")
        else if dim = 1 then ("select_height") else ("select_width")) ∧
      job.params.index =
        int64ToUInt32 (if index < 0 then index + self.size dim else index) := by
  have hdim : dim = 0 ∨ dim = 1 ∨ dim = 2 := by omega
  rcases hdim with rfl | rfl | rfl
  · obtain ⟨pre, outTex, job, ht, hj, hpre, hid, hsz, hst, hr1, hsh, hg, hl, hp, ho⟩ :=
      select_depth_spec self
        (int64ToUInt32 (if index < 0 then index + self.size 0 else index)) ctx
    refine ⟨_, _, job, select_eq_depth self index ctx h3 hlo hhi, hj, ?_, ?_⟩
    · simpa using hsh
    · rw [hp]
  · obtain ⟨pre, outTex, job, ht, hj, hpre, hid, hsz, hst, hr1, hsh, hg, hl, hp, ho⟩ :=
      select_height_spec self
        (int64ToUInt32 (if index < 0 then index + self.size 1 else index)) ctx
    refine ⟨_, _, job, select_eq_height self index ctx h3 hlo hhi, hj, ?_, ?_⟩
    · simpa using hsh
    · rw [hp]
  · obtain ⟨pre, outTex, job, ht, hj, hpre, hid, hsz, hst, hr1, hsh, hg, hl, hp, ho⟩ :=
      select_width_spec self
        (int64ToUInt32 (if index < 0 then index + self.size 2 else index)) ctx
    refine ⟨_, _, job, select_eq_width self index ctx h3 hlo hhi, hj, ?_, ?_⟩
    · simpa using hsh
    · rw [hp]

/-- Witness for C6: tensor (2,3,4), axis 0, index -1 routes to `select_depth`
with normalized index 1. -/
theorem select_routing_witness :
    ∃ t ctx1 job,
      select t234 0 (-1) ctx0 = (Except.ok t, ctx1) ∧
      ctx1.jobs = ctx0.jobs ++ [job] ∧
      job.shader = (if (0 : Int) = 0 then ("select_depth")
        else if (0 : Int) = 1 then ("select_height") else ("select_width")) ∧
      job.params.index =
        int64ToUInt32 (if (-1 : Int) < 0 then -1 + t234.size 0 else -1) :=
  select_routing t234 0 (-1) ctx0 (by decide) (by decide) (by decide)
    (by decide) (by decide)

/-- C7: for every depth-select call (axis 0), the global dispatch geometry of
the submitted job equals the freshly allocated output texture's extents
exactly, and the local work-group size is `adaptive_work_group_size` of that
global geometry. -/
theorem select_depth_geometry (self : Tensor) (index : Int) (ctx : GpuContext)
    (h3 : self.dim = 3)
    (hlo : -(self.size 0) ≤ index) (hhi : index < self.size 0) :
    ∃ t ctx1 pre outTex job,
      select self 0 index ctx = (Except.ok t, ctx1) ∧
      ctx1.textures = (ctx.textures ++ pre) ++ [outTex] ∧
      t.texId = outTex.id ∧
      ctx1.jobs = ctx.jobs ++ [job] ∧
      job.global_work_group = textureExtents outTex.sizes ∧
      job.local_work_group = adaptive_work_group_size job.global_work_group := by
  obtain ⟨pre, outTex, job, ht, hj, hpre, hid, hsz, hst, hr1, hsh, hg, hl, hp, ho⟩ :=
    select_depth_spec self
      (int64ToUInt32 (if index < 0 then index + self.size 0 else index)) ctx
  refine ⟨_, _, pre, outTex, job,
    select_eq_depth self index ctx h3 hlo hhi, ht, ?_, hj, hg, hl⟩
  rw [hr1]

/-- Witness for C7: tensor (2,3,4), axis 0, index 1. -/
theorem select_depth_geometry_witness :
    ∃ t ctx1 pre outTex job,
      select t234 0 1 ctx0 = (Except.ok t, ctx1) ∧
      ctx1.textures = (ctx0.textures ++ pre) ++ [outTex] ∧
      t.texId = outTex.id ∧
      ctx1.jobs = ctx0.jobs ++ [job] ∧
      job.global_work_group = textureExtents outTex.sizes ∧
      job.local_work_group = adaptive_work_group_size job.global_work_group :=
  select_depth_geometry t234 1 ctx0 (by decide) (by decide) (by decide)

/-- C8: for every plan, the parameter block of the submitted job, laid out as
its sequence of 32-bit words, is exactly the three components of the output
texture's extents followed by the selected (normalized, narrowed) index. -/
theorem select_param_block (self : Tensor) (dim index : Int)
    (ctx : GpuContext) (h3 : self.dim = 3) (h0 : 0 ≤ dim) (h2 : dim ≤ 2)
    (hlo : -(self.size dim) ≤ index) (hhi : index < self.size dim) :
    ∃ t ctx1 pre outTex job,
      select self dim index ctx = (Except.ok t, ctx1) ∧
      ctx1.textures = (ctx.textures ++ pre) ++ [outTex] ∧
      t.texId = outTex.id ∧
      ctx1.jobs = ctx.jobs ++ [job] ∧
      job.params.words =
        [(textureExtents outTex.sizes).data0,
         (textureExtents outTex.sizes).data1,
         (textureExtents outTex.sizes).data2,
         int64ToUInt32 (if index < 0 then index + self.size dim else index)] := by
  have hdim : dim = 0 ∨ dim = 1 ∨ dim = 2 := by omega
  rcases hdim with rfl | rfl | rfl
  · obtain ⟨pre, outTex, job, ht, hj, hpre, hid, hsz, hst, hr1, hsh, hg, hl, hp, ho⟩ :=
      select_depth_spec self
        (int64ToUInt32 (if index < 0 then index + self.size 0 else index)) ctx
    refine ⟨_, _, pre, outTex, job,
      select_eq_depth self index ctx h3 hlo hhi, ht, ?_, hj, ?_⟩
    · rw [hr1]
    · rw [hp]
      rfl
  · obtain ⟨pre, outTex, job, ht, hj, hpre, hid, hsz, hst, hr1, hsh, hg, hl, hp, ho⟩ :=
      select_height_spec self
        (int64ToUInt32 (if index < 0 then index + self.size 1 else index)) ctx
    refine ⟨_, _, pre, outTex, job,
      select_eq_height self index ctx h3 hlo hhi, ht, ?_, hj, ?_⟩
    · rw [hr1]
    · rw [hp]
      rfl
  · obtain ⟨pre, outTex, job, ht, hj, hpre, hid, hsz, hst, hr1, hsh, hg, hl, hp, ho⟩ :=
      select_width_spec self
        (int64ToUInt32 (if index < 0 then index + self.size 2 else index)) ctx
    refine ⟨_, _, pre, outTex, job,
      select_eq_width self index ctx h3 hlo hhi, ht, ?_, hj, ?_⟩
    · rw [hr1]
    · rw [hp]
      rfl

/-- Witness for C8: tensor (2,3,4), axis 2, index 3. -/
theorem select_param_block_witness :
    ∃ t ctx1 pre outTex job,
      select t234 2 3 ctx0 = (Except.ok t, ctx1) ∧
      ctx1.textures = (ctx0.textures ++ pre) ++ [outTex] ∧
      t.texId = outTex.id ∧
      ctx1.jobs = ctx0.jobs ++ [job] ∧
      job.params.words =
        [(textureExtents outTex.sizes).data0,
         (textureExtents outTex.sizes).data1,
         (textureExtents outTex.sizes).data2,
         int64ToUInt32 (if (3 : Int) < 0 then 3 + t234.size 2 else 3)] :=
  select_param_block t234 2 3 ctx0 (by decide) (by decide) (by decide)
    (by decide) (by decide)

/-- C9: a successful `select` never mutates pre-existing state: the final
context's texture list extends the initial one (every texture that existed
before the call, among them the input's backing storage, is still there
unchanged), everything newly allocated carries a fresh id, and the returned
tensor is backed by one of the freshly allocated textures — distinct from the
input's backing texture and from every pre-existing texture. -/
theorem select_no_mutation (self : Tensor) (dim index : Int)
    (ctx : GpuContext) (h3 : self.dim = 3) (h0 : 0 ≤ dim) (h2 : dim ≤ 2)
    (hlo : -(self.size dim) ≤ index) (hhi : index < self.size dim)
    (hwf : ∀ tex ∈ ctx.textures, tex.id < ctx.nextTexId)
    (hself : self.texId < ctx.nextTexId) :
    ∃ t ctx1 fresh,
      select self dim index ctx = (Except.ok t, ctx1) ∧
      ctx1.textures = ctx.textures ++ fresh ∧
      (∀ tex ∈ fresh, ctx.nextTexId ≤ tex.id) ∧
      (∃ outTex ∈ fresh, outTex.id = t.texId) ∧
      t.texId ≠ self.texId ∧
      (∀ tex ∈ ctx.textures, tex.id ≠ t.texId) := by
  have hdim : dim = 0 ∨ dim = 1 ∨ dim = 2 := by omega
  rcases hdim with rfl | rfl | rfl
  · obtain ⟨pre, outTex, job, ht, hj, hpre, hid, hsz, hst, hr1, hsh, hg, hl, hp, ho⟩ :=
      select_depth_spec self
        (int64ToUInt32 (if index < 0 then index + self.size 0 else index)) ctx
    refine ⟨_, _, pre ++ [outTex],
      select_eq_depth self index ctx h3 hlo hhi, ?_, ?_, ?_, ?_, ?_⟩
    · rw [ht, List.append_assoc]
    · intro tex htex
      rcases List.mem_append.mp htex with hmem | hmem
      · exact hpre tex hmem
      · rw [List.mem_singleton.mp hmem, hid]
        omega
    · exact ⟨outTex, List.mem_append.mpr (Or.inr (List.mem_singleton.mpr rfl)),
        by rw [hr1]⟩
    · rw [hr1]
      simp only []
      omega
    · intro tex htex
      have := hwf tex htex
      rw [hr1]
      simp only []
      omega
  · obtain ⟨pre, outTex, job, ht, hj, hpre, hid, hsz, hst, hr1, hsh, hg, hl, hp, ho⟩ :=
      select_height_spec self
        (int64ToUInt32 (if index < 0 then index + self.size 1 else index)) ctx
    refine ⟨_, _, pre ++ [outTex],
      select_eq_height self index ctx h3 hlo hhi, ?_, ?_, ?_, ?_, ?_⟩
    · rw [ht, List.append_assoc]
    · intro tex htex
      rcases List.mem_append.mp htex with hmem | hmem
      · exact hpre tex hmem
      · rw [List.mem_singleton.mp hmem, hid]
        omega
    · exact ⟨outTex, List.mem_append.mpr (Or.inr (List.mem_singleton.mpr rfl)),
        by rw [hr1]⟩
    · rw [hr1]
      simp only []
      omega
    · intro tex htex
      have := hwf tex htex
      rw [hr1]
      simp only []
      omega
  · obtain ⟨pre, outTex, job, ht, hj, hpre, hid, hsz, hst, hr1, hsh, hg, hl, hp, ho⟩ :=
      select_width_spec self
        (int64ToUInt32 (if index < 0 then index + self.size 2 else index)) ctx
    refine ⟨_, _, pre ++ [outTex],
      select_eq_width self index ctx h3 hlo hhi, ?_, ?_, ?_, ?_, ?_⟩
    · rw [ht, List.append_assoc]
    · intro tex htex
      rcases List.mem_append.mp htex with hmem | hmem
      · exact hpre tex hmem
      · rw [List.mem_singleton.mp hmem, hid]
        omega
    · exact ⟨outTex, List.mem_append.mpr (Or.inr (List.mem_singleton.mpr rfl)),
        by rw [hr1]⟩
    · rw [hr1]
      simp only []
      omega
    · intro tex htex
      have := hwf tex htex
      rw [hr1]
      simp only []
      omega

/-- Witness for C9: tensor (2,3,4) backed by texture 0, axis 1, index 1, on a
context whose allocated ids are all below 5. -/
theorem select_no_mutation_witness :
    ∃ t ctx1 fresh,
      select t234 1 1 ctx0 = (Except.ok t, ctx1) ∧
      ctx1.textures = ctx0.textures ++ fresh ∧
      (∀ tex ∈ fresh, ctx0.nextTexId ≤ tex.id) ∧
      (∃ outTex ∈ fresh, outTex.id = t.texId) ∧
      t.texId ≠ t234.texId ∧
      (∀ tex ∈ ctx0.textures, tex.id ≠ t.texId) :=
  select_no_mutation t234 1 1 ctx0 (by decide) (by decide) (by decide)
    (by decide) (by decide) (by decide) (by decide)

/-- C10: for every call that passes validation, the normalized index the
driver hands to the plan lies in `[0, size)`, and therefore the implicit
narrowing from the driver's signed 64-bit index to the plan's unsigned
32-bit parameter preserves the value whenever the axis extent does not
exceed `2^32`; the submitted job's parameter block carries exactly this
narrowed value. -/
theorem select_index_narrowing (self : Tensor) (dim index : Int)
    (ctx : GpuContext) (h3 : self.dim = 3) (h0 : 0 ≤ dim) (h2 : dim ≤ 2)
    (hlo : -(self.size dim) ≤ index) (hhi : index < self.size dim) :
    (0 ≤ (if index < 0 then index + self.size dim else index) ∧
      (if index < 0 then index + self.size dim else index) < self.size dim) ∧
    (self.size dim ≤ (2 : Int) ^ 32 →
      ((int64ToUInt32 (if index < 0 then index + self.size dim else index) : Nat) : Int) =
        (if index < 0 then index + self.size dim else index)) ∧
    ∃ t ctx1 job,
      select self dim index ctx = (Except.ok t, ctx1) ∧
      ctx1.jobs = ctx.jobs ++ [job] ∧
      job.params.index =
        int64ToUInt32 (if index < 0 then index + self.size dim else index) := by
  have hrange : 0 ≤ (if index < 0 then index + self.size dim else index) ∧
      (if index < 0 then index + self.size dim else index) < self.size dim := by
    constructor <;> (split <;> omega)
  refine ⟨hrange, ?_, ?_⟩
  · intro hsize
    have hpow : ((2 : Int) ^ 32) = 4294967296 := by norm_num
    unfold int64ToUInt32
    rw [Int.emod_eq_of_lt hrange.1 (by omega)]
    exact Int.toNat_of_nonneg hrange.1
  · have hdim : dim = 0 ∨ dim = 1 ∨ dim = 2 := by omega
    rcases hdim with rfl | rfl | rfl
    · obtain ⟨pre, outTex, job, ht, hj, hpre, hid, hsz, hst, hr1, hsh, hg, hl, hp, ho⟩ :=
        select_depth_spec self
          (int64ToUInt32 (if index < 0 then index + self.size 0 else index)) ctx
      refine ⟨_, _, job, select_eq_depth self index ctx h3 hlo hhi, hj, ?_⟩
      rw [hp]
    · obtain ⟨pre, outTex, job, ht, hj, hpre, hid, hsz, hst, hr1, hsh, hg, hl, hp, ho⟩ :=
        select_height_spec self
          (int64ToUInt32 (if index < 0 then index + self.size 1 else index)) ctx
      refine ⟨_, _, job, select_eq_height self index ctx h3 hlo hhi, hj, ?_⟩
      rw [hp]
    · obtain ⟨pre, outTex, job, ht, hj, hpre, hid, hsz, hst, hr1, hsh, hg, hl, hp, ho⟩ :=
        select_width_spec self
          (int64ToUInt32 (if index < 0 then index + self.size 2 else index)) ctx
      refine ⟨_, _, job, select_eq_width self index ctx h3 hlo hhi, hj, ?_⟩
      rw [hp]

/-- Witness for C10: tensor (2,3,4), axis 2, index -4 normalizes to 0, which
the 32-bit narrowing preserves. -/
theorem select_index_narrowing_witness :
    (0 ≤ (if (-4 : Int) < 0 then -4 + t234.size 2 else -4) ∧
      (if (-4 : Int) < 0 then -4 + t234.size 2 else -4) < t234.size 2) ∧
    (t234.size 2 ≤ (2 : Int) ^ 32 →
      ((int64ToUInt32 (if (-4 : Int) < 0 then -4 + t234.size 2 else -4) : Nat) : Int) =
        (if (-4 : Int) < 0 then -4 + t234.size 2 else -4)) ∧
    ∃ t ctx1 job,
      select t234 2 (-4) ctx0 = (Except.ok t, ctx1) ∧
      ctx1.jobs = ctx0.jobs ++ [job] ∧
      job.params.index =
        int64ToUInt32 (if (-4 : Int) < 0 then -4 + t234.size 2 else -4) :=
  select_index_narrowing t234 2 (-4) ctx0 (by decide) (by decide) (by decide)
    (by decide) (by decide)

end VulkanSelect
